import Mathlib

/-!
Shallow embedding of `src/mpr_visualization.py` (the "Advanced MPR Visualizer",
a single-file Tkinter application) and proofs about it.

Modelling conventions:
* Python integers are `Int` (unbounded, as in Python); Python floor division
  `//` is `Int.fdiv`.
* Numpy pixel values are modelled as exact rationals `ℚ`; `astype(np.float32)`
  is modelled as the identity on these exact values (float rounding is not
  modelled).  A 2-D numpy array is a `List (List ℚ)` in row-major order.
* The external libraries (SimpleITK, scipy, matplotlib) are modelled as
  parameters: the DICOM reader as a `DicomLib` record of fallible calls
  (`Except` models a raised Python exception), the scipy
  `gaussian_filter(·, sigma=1)` as an arbitrary function `SliceArr → SliceArr`
  passed in as `blur`, and `plt.cm.get_cmap` as a function
  `String → ℚ → Rgba` passed in as `cmapOf`.
* Tkinter rendering side effects (figure clearing, `imshow`, `canvas.draw`,
  PIL resize of snapshots, message boxes) are pure outputs of the model:
  functions return the image value handed to the renderer, and the `_run`
  variants additionally return the list of modal error dialogs shown.
-/

/-- The three anatomical planes; the keys of the Python dicts
`current_indices` and `max_indices` in `MPRApp.__init__`. -/
inductive Plane where
  | axial
  | coronal
  | sagittal
  deriving DecidableEq, Repr

instance : Fintype Plane :=
  ⟨⟨{Plane.axial, Plane.coronal, Plane.sagittal}, by decide⟩, by intro p; cases p <;> decide⟩

/-- The mutable UI state of `MPRApp` relevant to slice navigation: the two
dicts `current_indices` and `max_indices` (one entry per plane) and the
`from_`/`to` bounds of the three `tk.Scale` sliders. -/
structure AppState where
  currentAxial : Int
  currentCoronal : Int
  currentSagittal : Int
  maxAxial : Int
  maxCoronal : Int
  maxSagittal : Int
  axialFrom : Int
  axialTo : Int
  coronalFrom : Int
  coronalTo : Int
  sagittalFrom : Int
  sagittalTo : Int
  deriving DecidableEq, Repr

/-- `self.current_indices[plane]`. -/
def AppState.current (s : AppState) : Plane → Int
  | Plane.axial => s.currentAxial
  | Plane.coronal => s.currentCoronal
  | Plane.sagittal => s.currentSagittal

/-- `self.max_indices[plane]`. -/
def AppState.maxIdx (s : AppState) : Plane → Int
  | Plane.axial => s.maxAxial
  | Plane.coronal => s.maxCoronal
  | Plane.sagittal => s.maxSagittal

/-- The state after `MPRApp.__init__` and `create_widgets`: both index dicts
are all zero (lines 66-67) and each slider is created with
`from_=0, to=0` (`create_scrollbar`, line 131). -/
def initState : AppState :=
  { currentAxial := 0, currentCoronal := 0, currentSagittal := 0
    maxAxial := 0, maxCoronal := 0, maxSagittal := 0
    axialFrom := 0, axialTo := 0
    coronalFrom := 0, coronalTo := 0
    sagittalFrom := 0, sagittalTo := 0 }

/-- The per-plane body of `MPRApp.change_slice` (lines 203-207):
`index += direction`; if the result is below 0 it is reset to 0, else if it
exceeds the plane's max it is reset to the max. -/
def stepIndex (cur maxI direction : Int) : Int :=
  let c := cur + direction
  if c < 0 then 0
  else if c > maxI then maxI
  else c

/-- `MPRApp.change_slice(direction)` (lines 201-208): the loop body updates
each plane's entry of `current_indices` independently, so the sequential dict
updates are modelled as a simultaneous record update. -/
def change_slice (s : AppState) (direction : Int) : AppState :=
  { s with
    currentAxial := stepIndex s.currentAxial s.maxAxial direction
    currentCoronal := stepIndex s.currentCoronal s.maxCoronal direction
    currentSagittal := stepIndex s.currentSagittal s.maxSagittal direction }

/-- A sequence of `change_slice` invocations (successive arrow-key presses). -/
def change_slice_seq (s : AppState) (dirs : List Int) : AppState :=
  dirs.foldl change_slice s

/-- The `<Left>` key binding (line 114): `change_slice(-1)`. -/
def leftKey (s : AppState) : AppState := change_slice s (-1)

/-- The `<Right>` key binding (line 115): `change_slice(1)`. -/
def rightKey (s : AppState) : AppState := change_slice s 1

/-- `MPRApp.on_scroll(plane, index)` (lines 171-173): stores the received
slider value into `current_indices[plane]` as is (the view refresh
`update_all_views` does not touch the indices). -/
def on_scroll (s : AppState) (plane : Plane) (index : Int) : AppState :=
  match plane with
  | Plane.axial => { s with currentAxial := index }
  | Plane.coronal => { s with currentCoronal := index }
  | Plane.sagittal => { s with currentSagittal := index }

/-- The state update of `MPRApp.load_dicom` after a successful load
(lines 153-162), for a volume whose `GetSize()` is `(sx, sy, sz)`:
`max_indices = size-1` per axis, each `current_indices[plane]` is set to
`max_indices[plane] // 2` (Python floor division, hence `Int.fdiv`), and each
slider is reconfigured with `to=max_indices[plane]` (its `from_` is left at
its creation value). -/
def load_update (s : AppState) (sx sy sz : Nat) : AppState :=
  let mA : Int := (sz : Int) - 1
  let mC : Int := (sy : Int) - 1
  let mS : Int := (sx : Int) - 1
  { s with
    maxAxial := mA, maxCoronal := mC, maxSagittal := mS
    currentAxial := mA.fdiv 2
    currentCoronal := mC.fdiv 2
    currentSagittal := mS.fdiv 2
    axialTo := mA, coronalTo := mC, sagittalTo := mS }

/-- clamp of an integer to `[lo, hi]`, written from the spec's words
("sets each plane's index to clamp(old index + direction, 0, max index)")
to be compared with `stepIndex`, which is translated from the code. -/
def clampInt (x lo hi : Int) : Int := max lo (min x hi)

/-- The invariant named by the spec: every plane's current index lies in
`[0, max index for that plane]`. -/
def AppState.inRange (s : AppState) : Prop :=
  ∀ p : Plane, 0 ≤ s.current p ∧ s.current p ≤ s.maxIdx p

instance (s : AppState) : Decidable s.inRange :=
  inferInstanceAs (Decidable (∀ _ : Plane, _ ∧ _))

/-- Every plane's max index is nonnegative (true initially, where all maxima
are 0, and after every successful load, where they are `size-1` with
`size ≥ 1`). -/
def AppState.maxNonneg (s : AppState) : Prop :=
  ∀ p : Plane, 0 ≤ s.maxIdx p

instance (s : AppState) : Decidable s.maxNonneg :=
  inferInstanceAs (Decidable (∀ _ : Plane, _))

/-- A 2-D numpy array of pixel values in row-major order. -/
abbrev SliceArr := List (List ℚ)

/-- The 3-D volume object returned by the SimpleITK series reader:
`GetSize()` is `(sizeX, sizeY, sizeZ)` and `voxel x y z` is the scalar value
at SimpleITK index `(x, y, z)`. -/
structure Volume where
  sizeX : Nat
  sizeY : Nat
  sizeZ : Nat
  voxel : Nat → Nat → Nat → ℚ

/-- `sitk.GetArrayFromImage(image[:, :, k])` for the axial slice: the 2-D
image of size `(sizeX, sizeY)`, as a numpy array of shape `(sizeY, sizeX)`. -/
def axialSlice (v : Volume) (k : Nat) : SliceArr :=
  (List.range v.sizeY).map fun y => (List.range v.sizeX).map fun x => v.voxel x y k

/-- `sitk.GetArrayFromImage(image[:, k, :])` for the coronal slice: the 2-D
image of size `(sizeX, sizeZ)`, as a numpy array of shape `(sizeZ, sizeX)`. -/
def coronalSlice (v : Volume) (k : Nat) : SliceArr :=
  (List.range v.sizeZ).map fun z => (List.range v.sizeX).map fun x => v.voxel x k z

/-- `sitk.GetArrayFromImage(image[k, :, :])` for the sagittal slice: the 2-D
image of size `(sizeY, sizeZ)`, as a numpy array of shape `(sizeZ, sizeY)`. -/
def sagittalSlice (v : Volume) (k : Nat) : SliceArr :=
  (List.range v.sizeZ).map fun z => (List.range v.sizeY).map fun y => v.voxel k y z

/-- The `try` body of `extract_slice` (lines 25-32), with a raised Python
exception modelled as `Except.error`.  The library slice indexing
`image[..index..]` raises unless `index` is a valid coordinate of the sliced
axis (modelled as `0 ≤ index < size`); for a `plane` other than the three
known names no branch assigns `slice_image`, and the final
`sitk.GetArrayFromImage(slice_image)` raises `UnboundLocalError`. -/
def extract_body (image : Volume) (plane : String) (index : Int) : Except String SliceArr :=
  if plane = "axial" then
    if 0 ≤ index ∧ index < (image.sizeZ : Int) then
      Except.ok (axialSlice image index.toNat)
    else Except.error "IndexError"
  else if plane = "coronal" then
    if 0 ≤ index ∧ index < (image.sizeY : Int) then
      Except.ok (coronalSlice image index.toNat)
    else Except.error "IndexError"
  else if plane = "sagittal" then
    if 0 ≤ index ∧ index < (image.sizeX : Int) then
      Except.ok (sagittalSlice image index.toNat)
    else Except.error "IndexError"
  else
    Except.error "UnboundLocalError: local variable referenced before assignment"

/-- `extract_slice(image, plane, index)` (lines 24-35) together with the list
of modal error dialogs it shows: on any exception in the body the handler
shows `messagebox.showerror` and returns `None`. -/
def extract_slice_run (image : Volume) (plane : String) (index : Int) :
    Option SliceArr × List String :=
  match extract_body image plane index with
  | Except.ok s => (some s, [])
  | Except.error e => (none, ["Failed to extract slice: " ++ e])

/-- The return value of `extract_slice(image, plane, index)`. -/
def extract_slice (image : Volume) (plane : String) (index : Int) : Option SliceArr :=
  (extract_slice_run image plane index).1

/-- The behaviour of the SimpleITK series reader on a given run, as seen by
`load_dicom_series`: `GetGDCMSeriesFileNames` and `reader.Execute`, each of
which may raise (`Except.error`). -/
structure DicomLib where
  getSeriesFileNames : String → Except String (List String)
  execute : List String → Except String Volume

/-- The `try` body of `load_dicom_series` (lines 12-19): fetch the series
file names, raise `ValueError` if the list is empty (`if not dicom_names`),
otherwise read the volume. -/
def load_body (lib : DicomLib) (directory : String) : Except String Volume :=
  match lib.getSeriesFileNames directory with
  | Except.error e => Except.error e
  | Except.ok dicom_names =>
    if dicom_names = [] then
      Except.error "No DICOM files found in the selected directory."
    else lib.execute dicom_names

/-- `load_dicom_series(directory)` (lines 11-22) together with the list of
modal error dialogs it shows: on any exception in the body the handler shows
`messagebox.showerror` and returns `None`. -/
def load_dicom_series_run (lib : DicomLib) (directory : String) :
    Option Volume × List String :=
  match load_body lib directory with
  | Except.ok image => (some image, [])
  | Except.error e => (none, ["Failed to load DICOM series: " ++ e])

/-- The return value of `load_dicom_series(directory)`. -/
def load_dicom_series (lib : DicomLib) (directory : String) : Option Volume :=
  (load_dicom_series_run lib directory).1

/-- An RGBA value as returned by a matplotlib colormap for one scalar. -/
abbrev Rgba := ℚ × ℚ × ℚ × ℚ

/-- The first three components of an RGBA value (`[:, :, :3]` keeps the RGB
channels). -/
def rgb3 (c : Rgba) : ℚ × ℚ × ℚ := (c.1, c.2.1, c.2.2.1)

/-- An image value handed to `ax.imshow`: either the 2-D scalar array or the
3-D RGB array produced by `apply_color_map`. -/
inductive PyImage where
  | gray (data : List (List ℚ))
  | rgb (data : List (List (ℚ × ℚ × ℚ)))
  deriving DecidableEq, Repr

/-- `np.max(image)` for a 2-D array (the maximum entry; on the empty array
numpy raises, which no claim exercises — the model returns 0 there). -/
def sliceMax (s : SliceArr) : ℚ :=
  match s.flatten with
  | [] => 0
  | x :: xs => xs.foldl max x

/-- `apply_color_map(image, color_map)` (lines 53-54):
`plt.cm.get_cmap(color_map)(image / np.max(image))[:, :, :3]` when
`np.max(image) > 0`, else the image unchanged.  `cmapOf` models
`plt.cm.get_cmap`, applied elementwise the way matplotlib broadcasts a
colormap over an array. -/
def apply_color_map (cmapOf : String → ℚ → Rgba) (image : SliceArr)
    (color_map : String) : PyImage :=
  if sliceMax image > 0 then
    PyImage.rgb (image.map fun row => row.map fun v =>
      rgb3 (cmapOf color_map (v / sliceMax image)))
  else PyImage.gray image

/-- The image value `display_slice` (lines 37-51) hands to the renderer
(`ax.imshow`): the extracted slice, converted with `astype(np.float32)`
(identity on the exact values of this model), colormapped when the selected
map is not `'gray'`; `none` when `extract_slice` returned `None` and the
function returned early without drawing. -/
def display_slice_image (cmapOf : String → ℚ → Rgba) (image : Volume)
    (plane : String) (index : Int) (color_map : String) : Option PyImage :=
  match extract_slice image plane index with
  | none => none
  | some s =>
    if color_map ≠ "gray" then some (apply_color_map cmapOf s color_map)
    else some (PyImage.gray s)

/-- The image one view receives from the view-update path
(`update_all_views`, lines 175-177, calling `display_slice`): the call passes
only the selected color map; the selected filter (`filter_var`) and the
library blur are part of the application state but are not consulted, so they
appear here as unused arguments. -/
def view_image (cmapOf : String → ℚ → Rgba) (_blur : SliceArr → SliceArr)
    (image : Volume) (plane : String) (index : Int)
    (color_map _filter_type : String) : Option PyImage :=
  display_slice_image cmapOf image plane index color_map

/-- `apply_filter(image, filter_type)` (lines 56-59): the scipy call
`gaussian_filter(image, sigma=1)` when the Gaussian filter is selected, the
image unchanged otherwise.  `blur` models the library blur. -/
def apply_filter (blur : SliceArr → SliceArr) (image : SliceArr)
    (filter_type : String) : SliceArr :=
  if filter_type = "Gaussian" then blur image else image

/-- The snapshot image `capture_snapshot` (lines 182-199) computes for a
plane before handing it to PIL for thumbnail rendering: the extracted slice,
run through `apply_filter` when the selected filter is not `'None'`; `none`
when extraction failed and nothing is stored. -/
def capture_snapshot_image (blur : SliceArr → SliceArr) (image : Volume)
    (plane : String) (index : Int) (filter_type : String) : Option SliceArr :=
  match extract_slice image plane index with
  | none => none
  | some s =>
    if filter_type ≠ "None" then some (apply_filter blur s filter_type)
    else some s

/-- A concrete 1×1×2 volume used to evaluate the model on closed inputs. -/
def vol0 : Volume :=
  { sizeX := 1, sizeY := 1, sizeZ := 2
    voxel := fun _ _ z => if z = 0 then 1 else 2 }

/-- A concrete stand-in for the library Gaussian blur, used to instantiate
the `blur` parameter on closed inputs; like the real `sigma=1` blur on a
non-constant array, it is not the identity. -/
def blur0 : SliceArr → SliceArr :=
  fun s => s.map fun row => row.map fun _ => 0

/-- A concrete stand-in for `plt.cm.get_cmap`, used to instantiate the
`cmapOf` parameter on closed inputs. -/
def cmap0 : String → ℚ → Rgba :=
  fun _ v => (v, 0, 0, 1)

/-- A concrete reader behaviour whose `GetGDCMSeriesFileNames` returns the
empty list (a directory with no DICOM files). -/
def lib0 : DicomLib :=
  { getSeriesFileNames := fun _ => Except.ok []
    execute := fun _ => Except.ok vol0 }

/-- A concrete in-range application state with axial maximum 5, used to
evaluate the handlers on closed inputs. -/
def st0 : AppState :=
  { currentAxial := 2, currentCoronal := 1, currentSagittal := 0
    maxAxial := 5, maxCoronal := 4, maxSagittal := 3
    axialFrom := 0, axialTo := 5
    coronalFrom := 0, coronalTo := 4
    sagittalFrom := 0, sagittalTo := 3 }

lemma inRange_maxNonneg (s : AppState) (h : s.inRange) : s.maxNonneg :=
  fun p => le_trans (h p).1 (h p).2

lemma change_slice_current (s : AppState) (d : Int) (p : Plane) :
    (change_slice s d).current p = stepIndex (s.current p) (s.maxIdx p) d := by
  cases p <;> rfl

lemma change_slice_maxIdx (s : AppState) (d : Int) (p : Plane) :
    (change_slice s d).maxIdx p = s.maxIdx p := by
  cases p <;> rfl

lemma stepIndex_mem (cur maxI d : Int) (h : 0 ≤ maxI) :
    0 ≤ stepIndex cur maxI d ∧ stepIndex cur maxI d ≤ maxI := by
  simp only [stepIndex]
  split <;> [omega; (split <;> omega)]

lemma stepIndex_eq_clamp (cur maxI d : Int) (h : 0 ≤ maxI) :
    stepIndex cur maxI d = clampInt (cur + d) 0 maxI := by
  simp only [stepIndex, clampInt]
  split <;> [omega; (split <;> omega)]

lemma change_slice_inRange (s : AppState) (d : Int) (h : s.maxNonneg) :
    (change_slice s d).inRange := by
  intro p
  rw [change_slice_current, change_slice_maxIdx]
  exact stepIndex_mem _ _ _ (h p)

lemma change_slice_maxNonneg (s : AppState) (d : Int) (h : s.maxNonneg) :
    (change_slice s d).maxNonneg := by
  intro p
  rw [change_slice_maxIdx]
  exact h p

lemma change_slice_seq_inRange (dirs : List Int) (s : AppState)
    (h : s.inRange) : (change_slice_seq s dirs).inRange := by
  induction dirs generalizing s with
  | nil => exact h
  | cons d dirs ih =>
    exact ih _ (change_slice_inRange s d (inRange_maxNonneg s h))

lemma on_scroll_current (s : AppState) (p q : Plane) (i : Int) :
    (on_scroll s p i).current q = if q = p then i else s.current q := by
  cases p <;> cases q <;> rfl

lemma on_scroll_maxIdx (s : AppState) (p q : Plane) (i : Int) :
    (on_scroll s p i).maxIdx q = s.maxIdx q := by
  cases p <;> cases q <;> rfl

/-- Claim C1: starting from any state whose slice indices all lie within
`[0, max index]`, any sequence of `change_slice` steps with direction `+1` or
`-1` keeps every plane's index within `[0, max index]`, and a single step
sets each plane's index to `clamp(old index + direction, 0, max index)`. -/
theorem spec_C1 (s : AppState) (dirs : List Int) (hs : s.inRange)
    (_hdirs : ∀ d ∈ dirs, d = 1 ∨ d = -1) :
    (change_slice_seq s dirs).inRange ∧
    ∀ d : Int, (d = 1 ∨ d = -1) → ∀ p : Plane,
      (change_slice s d).current p = clampInt (s.current p + d) 0 (s.maxIdx p) := by
  refine ⟨change_slice_seq_inRange dirs s hs, fun d _ p => ?_⟩
  rw [change_slice_current]
  exact stepIndex_eq_clamp _ _ _ (inRange_maxNonneg s hs p)

theorem spec_C1_witness :
    st0.inRange ∧
    (change_slice_seq st0 [1, 1, -1, 1]).inRange ∧
    (change_slice st0 1).current Plane.axial =
      clampInt (st0.current Plane.axial + 1) 0 (st0.maxIdx Plane.axial) :=
  ⟨by decide,
   (spec_C1 st0 [1, 1, -1, 1] (by decide) (by decide)).1,
   (spec_C1 st0 [1, 1, -1, 1] (by decide) (by decide)).2 1 (Or.inl rfl) Plane.axial⟩

/-- Claim C2, counterexample: `on_scroll` does not clamp.  In the concrete
in-range state `st0` (axial max 5), receiving slider value 10 for the axial
plane leaves the axial index at 10, outside `[0, 5]`. -/
theorem spec_C2_cex :
    st0.inRange ∧ st0.maxIdx Plane.axial = 5 ∧
    (on_scroll st0 Plane.axial 10).current Plane.axial = 10 ∧
    ¬ (on_scroll st0 Plane.axial 10).inRange := by
  decide

/-- Claim C2, amended: the arrow-key handler `change_slice` clamps, so after
it runs every plane's index lies in `[0, max]` for every integer direction
(given nonnegative maxima); the slider callback `on_scroll` stores the
received value unchanged, without clamping, so after it runs the indices lie
in `[0, max]` exactly when the received value already does (which the
`tk.Scale` widget's configured range guarantees in the GUI). -/
theorem spec_C2 (s : AppState) (hmax : s.maxNonneg) :
    (∀ d : Int, (change_slice s d).inRange) ∧
    (∀ (p : Plane) (i : Int), (on_scroll s p i).current p = i) ∧
    (∀ (p : Plane) (i : Int), s.inRange → 0 ≤ i → i ≤ s.maxIdx p →
      (on_scroll s p i).inRange) := by
  refine ⟨fun d => change_slice_inRange s d hmax, fun p i => ?_, fun p i hs h0 h1 q => ?_⟩
  · rw [on_scroll_current]; simp
  · rw [on_scroll_current, on_scroll_maxIdx]
    by_cases hq : q = p
    · subst hq; simp [h0, h1]
    · simp [hq]; exact hs q

theorem spec_C2_witness :
    st0.maxNonneg ∧ (change_slice st0 7).inRange ∧
    (on_scroll st0 Plane.axial 4).current Plane.axial = 4 ∧
    (on_scroll st0 Plane.axial 4).inRange :=
  ⟨by decide,
   (spec_C2 st0 (by decide)).1 7,
   (spec_C2 st0 (by decide)).2.1 Plane.axial 4,
   (spec_C2 st0 (by decide)).2.2 Plane.axial 4 (by decide) (by decide) (by decide)⟩

/-- Claim C5: one invocation of `change_slice` applies the same direction to
every plane (each plane's new index is `stepIndex` of its old index with that
one direction); every plane whose index is strictly inside `[0, max]` changes
by exactly the direction; and the left/right key bindings invoke
`change_slice` with `-1` and `+1`. -/
theorem spec_C5 (s : AppState) (d : Int) (hd : d = 1 ∨ d = -1) :
    (∀ p : Plane, (change_slice s d).current p = stepIndex (s.current p) (s.maxIdx p) d) ∧
    (∀ p : Plane, 0 < s.current p → s.current p < s.maxIdx p →
      (change_slice s d).current p = s.current p + d) ∧
    leftKey s = change_slice s (-1) ∧ rightKey s = change_slice s 1 := by
  refine ⟨fun p => change_slice_current s d p, fun p h0 h1 => ?_, rfl, rfl⟩
  rw [change_slice_current]
  simp only [stepIndex]
  rcases hd with h | h <;> subst h <;> (split <;> [omega; (split <;> omega)])

theorem spec_C5_witness :
    ((1 : Int) = 1 ∨ (1 : Int) = -1) ∧
    (change_slice st0 1).current Plane.axial =
      stepIndex (st0.current Plane.axial) (st0.maxIdx Plane.axial) 1 ∧
    (0 < st0.current Plane.axial ∧ st0.current Plane.axial < st0.maxIdx Plane.axial) ∧
    (change_slice st0 1).current Plane.axial = st0.current Plane.axial + 1 ∧
    leftKey st0 = change_slice st0 (-1) ∧ rightKey st0 = change_slice st0 1 :=
  ⟨Or.inl rfl,
   (spec_C5 st0 1 (Or.inl rfl)).1 Plane.axial,
   by decide,
   (spec_C5 st0 1 (Or.inl rfl)).2.1 Plane.axial (by decide) (by decide),
   (spec_C5 st0 1 (Or.inl rfl)).2.2.1,
   (spec_C5 st0 1 (Or.inl rfl)).2.2.2⟩

/-- Claim C4: after a successful load of a volume of size `(sx, sy, sz)`, the
axial slider ranges over `[0, sz-1]`, the coronal over `[0, sy-1]` and the
sagittal over `[0, sx-1]` (the lower bound 0 comes from widget creation and
is never reconfigured), and `max_indices` records exactly these upper
bounds. -/
theorem spec_C4 (s : AppState) (sx sy sz : Nat)
    (hA : s.axialFrom = 0) (hC : s.coronalFrom = 0) (hS : s.sagittalFrom = 0) :
    (initState.axialFrom = 0 ∧ initState.coronalFrom = 0 ∧ initState.sagittalFrom = 0) ∧
    ((load_update s sx sy sz).axialFrom = 0 ∧
      (load_update s sx sy sz).axialTo = (sz : Int) - 1) ∧
    ((load_update s sx sy sz).coronalFrom = 0 ∧
      (load_update s sx sy sz).coronalTo = (sy : Int) - 1) ∧
    ((load_update s sx sy sz).sagittalFrom = 0 ∧
      (load_update s sx sy sz).sagittalTo = (sx : Int) - 1) ∧
    ((load_update s sx sy sz).maxAxial = (sz : Int) - 1 ∧
      (load_update s sx sy sz).maxCoronal = (sy : Int) - 1 ∧
      (load_update s sx sy sz).maxSagittal = (sx : Int) - 1) := by
  refine ⟨⟨rfl, rfl, rfl⟩, ⟨hA, rfl⟩, ⟨hC, rfl⟩, ⟨hS, rfl⟩, rfl, rfl, rfl⟩

theorem spec_C4_witness :
    initState.axialFrom = 0 ∧
    (load_update initState 3 4 5).axialFrom = 0 ∧
    (load_update initState 3 4 5).axialTo = (5 : Int) - 1 ∧
    (load_update initState 3 4 5).coronalTo = (4 : Int) - 1 ∧
    (load_update initState 3 4 5).sagittalTo = (3 : Int) - 1 ∧
    (load_update initState 3 4 5).maxAxial = (5 : Int) - 1 :=
  ⟨(spec_C4 initState 3 4 5 rfl rfl rfl).1.1,
   (spec_C4 initState 3 4 5 rfl rfl rfl).2.1.1,
   (spec_C4 initState 3 4 5 rfl rfl rfl).2.1.2,
   (spec_C4 initState 3 4 5 rfl rfl rfl).2.2.1.2,
   (spec_C4 initState 3 4 5 rfl rfl rfl).2.2.2.1.2,
   (spec_C4 initState 3 4 5 rfl rfl rfl).2.2.2.2.1⟩

/-- Claim C10: after a successful load of a volume of size `(sx, sy, sz)`
(each dimension at least 1), every plane's current index is initialised to
the midpoint of its range — axial `(sz-1)/2`, coronal `(sy-1)/2`, sagittal
`(sx-1)/2` with integer division — independent of the indices held before
loading. -/
theorem spec_C10 (s : AppState) (sx sy sz : Nat)
    (_hx : 1 ≤ sx) (_hy : 1 ≤ sy) (_hz : 1 ≤ sz) :
    (load_update s sx sy sz).currentAxial = ((sz : Int) - 1) / 2 ∧
    (load_update s sx sy sz).currentCoronal = ((sy : Int) - 1) / 2 ∧
    (load_update s sx sy sz).currentSagittal = ((sx : Int) - 1) / 2 ∧
    ∀ (s2 : AppState) (p : Plane),
      (load_update s sx sy sz).current p = (load_update s2 sx sy sz).current p := by
  refine ⟨?_, ?_, ?_, fun s2 p => by cases p <;> rfl⟩ <;>
    simp only [load_update] <;>
    exact Int.fdiv_eq_ediv _ (by decide)

theorem spec_C10_witness :
    (1 ≤ 3 ∧ 1 ≤ 4 ∧ 1 ≤ 5) ∧
    (load_update st0 3 4 5).currentAxial = ((5 : Int) - 1) / 2 ∧
    (load_update st0 3 4 5).currentCoronal = ((4 : Int) - 1) / 2 ∧
    (load_update st0 3 4 5).currentSagittal = ((3 : Int) - 1) / 2 :=
  ⟨⟨by decide, by decide, by decide⟩,
   (spec_C10 st0 3 4 5 (by decide) (by decide) (by decide)).1,
   (spec_C10 st0 3 4 5 (by decide) (by decide) (by decide)).2.1,
   (spec_C10 st0 3 4 5 (by decide) (by decide) (by decide)).2.2.1⟩

/-- Claim C3, counterexample: with the Gaussian filter selected, the image
the view-update path hands to the renderer is not the blurred extracted
slice.  On the concrete volume `vol0` (axial slice 0 is `[[1]]`), with the
gray map and a blur that is not the identity on that slice, the view shows
the raw slice `[[1]]`, not the blurred `[[0]]`. -/
theorem spec_C3_cex :
    blur0 [[1]] ≠ [[1]] ∧
    extract_slice vol0 "axial" 0 = some [[1]] ∧
    view_image cmap0 blur0 vol0 "axial" 0 "gray" "Gaussian" ≠
      (extract_slice vol0 "axial" 0).map fun s => PyImage.gray (blur0 s) := by
  decide

/-- Claim C3, amended: the Gaussian filter is applied only in the
snapshot-capture path, not in the view-update path.  The image the
view-update path hands to the renderer does not depend on the selected
filter or on the library blur at all (with the gray map it is exactly the
raw extracted slice), while `capture_snapshot` with the Gaussian filter
selected computes exactly the library blur of the extracted slice. -/
theorem spec_C3 (cmapOf : String → ℚ → Rgba) (blurA blurB : SliceArr → SliceArr)
    (image : Volume) (plane : String) (index : Int) (color_map ftA ftB : String) :
    view_image cmapOf blurA image plane index color_map ftA =
      view_image cmapOf blurB image plane index color_map ftB ∧
    view_image cmapOf blurA image plane index "gray" ftA =
      (extract_slice image plane index).map PyImage.gray ∧
    capture_snapshot_image blurA image plane index "Gaussian" =
      (extract_slice image plane index).map blurA := by
  refine ⟨rfl, ?_, ?_⟩ <;>
    cases h : extract_slice image plane index <;>
    simp [view_image, display_slice_image, capture_snapshot_image, apply_filter, h]

/-- Claim C6: every failure of the underlying library calls is caught at the
call site.  `load_dicom_series` returns a volume exactly when its `try` body
succeeds; whenever the body raises (any reader failure, and in particular an
empty file-name list from a directory with no DICOM files) it shows one
modal error dialog and returns `None`; likewise `extract_slice` shows one
modal error dialog and returns `None` whenever its body raises. -/
theorem spec_C6 :
    (∀ (lib : DicomLib) (dir : String) (v : Volume),
      load_dicom_series lib dir = some v ↔ load_body lib dir = Except.ok v) ∧
    (∀ (lib : DicomLib) (dir e : String), load_body lib dir = Except.error e →
      load_dicom_series_run lib dir =
        (none, ["Failed to load DICOM series: " ++ e])) ∧
    (∀ (lib : DicomLib) (dir : String),
      lib.getSeriesFileNames dir = Except.ok [] →
      load_dicom_series lib dir = none) ∧
    (∀ (image : Volume) (plane : String) (index : Int) (e : String),
      extract_body image plane index = Except.error e →
      extract_slice_run image plane index =
        (none, ["Failed to extract slice: " ++ e])) := by
  refine ⟨fun lib dir v => ?_, fun lib dir e h => ?_, fun lib dir h => ?_,
    fun image plane index e h => ?_⟩
  · unfold load_dicom_series load_dicom_series_run
    cases h : load_body lib dir <;> simp
  · unfold load_dicom_series_run
    rw [h]
  · unfold load_dicom_series load_dicom_series_run load_body
    rw [h]
    simp
  · unfold extract_slice_run
    rw [h]

theorem spec_C6_witness :
    lib0.getSeriesFileNames "dir" = Except.ok [] ∧
    load_dicom_series lib0 "dir" = none ∧
    extract_body vol0 "oblique" 0 =
      Except.error "UnboundLocalError: local variable referenced before assignment" ∧
    extract_slice_run vol0 "oblique" 0 =
      (none, ["Failed to extract slice: " ++
        "UnboundLocalError: local variable referenced before assignment"]) :=
  ⟨rfl,
   spec_C6.2.2.1 lib0 "dir" rfl,
   rfl,
   spec_C6.2.2.2 vol0 "oblique" 0
     "UnboundLocalError: local variable referenced before assignment" rfl⟩

/-- Claim C7: with a non-gray color map selected, for every slice whose
maximum is positive, the image handed to the renderer is the library
colormap applied exactly once to the slice normalised by its maximum,
keeping the RGB channels (the renderer receives this RGB array, for which
the `cmap` keyword of `imshow` is inert, so no second colormap application
occurs). -/
theorem spec_C7 (cmapOf : String → ℚ → Rgba) (image : Volume) (plane : String)
    (index : Int) (color_map : String) (s : SliceArr)
    (hcm : color_map ≠ "gray")
    (hex : extract_slice image plane index = some s)
    (hmax : 0 < sliceMax s) :
    display_slice_image cmapOf image plane index color_map =
      some (PyImage.rgb (s.map fun row => row.map fun v =>
        rgb3 (cmapOf color_map (v / sliceMax s)))) := by
  unfold display_slice_image
  rw [hex]
  simp [hcm, apply_color_map, hmax]

theorem spec_C7_witness :
    ("jet" ≠ "gray") ∧
    extract_slice vol0 "axial" 0 = some [[1]] ∧
    (0 : ℚ) < sliceMax [[1]] ∧
    display_slice_image cmap0 vol0 "axial" 0 "jet" =
      some (PyImage.rgb (([[1]] : SliceArr).map fun row => row.map fun v =>
        rgb3 (cmap0 "jet" (v / sliceMax [[1]])))) :=
  ⟨by decide, by decide, by decide,
   spec_C7 cmap0 vol0 "axial" 0 "jet" [[1]] (by decide) (by decide) (by decide)⟩

/-- Claim C8: `apply_filter` is the identity for every filter type other
than `'Gaussian'`, and capturing a snapshot with no filter selected
(`'None'`) computes exactly the raw extracted slice. -/
theorem spec_C8 (blur : SliceArr → SliceArr) (image : SliceArr)
    (filter_type : String) (vol : Volume) (plane : String) (index : Int)
    (h : filter_type ≠ "Gaussian") :
    apply_filter blur image filter_type = image ∧
    capture_snapshot_image blur vol plane index "None" =
      extract_slice vol plane index := by
  constructor
  · simp [apply_filter, h]
  · cases hex : extract_slice vol plane index <;>
      simp [capture_snapshot_image, hex]

theorem spec_C8_witness :
    ("None" ≠ "Gaussian") ∧
    apply_filter blur0 [[1]] "None" = [[1]] ∧
    capture_snapshot_image blur0 vol0 "axial" 0 "None" =
      extract_slice vol0 "axial" 0 :=
  ⟨by decide,
   (spec_C8 blur0 [[1]] "None" vol0 "axial" 0 (by decide)).1,
   (spec_C8 blur0 [[1]] "None" vol0 "axial" 0 (by decide)).2⟩

/-- Claim C9: for every plane argument other than `'axial'`, `'coronal'` and
`'sagittal'`, `extract_slice` returns `None` for every volume and index: no
branch of the `if` chain assigns `slice_image`, the resulting
`UnboundLocalError` is an `Exception`, and the handler catches it. -/
theorem spec_C9 (image : Volume) (plane : String) (index : Int)
    (h1 : plane ≠ "axial") (h2 : plane ≠ "coronal") (h3 : plane ≠ "sagittal") :
    extract_slice image plane index = none := by
  unfold extract_slice extract_slice_run extract_body
  simp [h1, h2, h3]

theorem spec_C9_witness :
    ("oblique2" ≠ "axial") ∧ ("oblique2" ≠ "coronal") ∧ ("oblique2" ≠ "sagittal") ∧
    extract_slice vol0 "oblique2" (-3) = none :=
  ⟨by decide, by decide, by decide,
   spec_C9 vol0 "oblique2" (-3) (by decide) (by decide) (by decide)⟩
